import Mathlib

/-!
Verification development for the rpi-monitor repository: a shallow embedding
of the monitor script (`rpi-monitor.py`) and its helper module (`rpi/rpi.py`)
in Lean 4, with theorems settling behavioural properties of the program.

Conventions: Python dicts whose insertion order matters (`OrderedDict`,
`json.dumps` output) are modelled as association lists; machine integers
are `Nat`/`Int`; shell/file I/O results are abstract inputs to the modelled
functions.
-/

namespace RpiMonitor

/-! ## A small JSON value model (targets of `json.dumps` in the script) -/

inductive JVal where
  | str (s : String)
  | num (n : Int)
  | arr (xs : List JVal)
  | obj (fields : List (String × JVal))
deriving Repr

/-- Association-list lookup, first match wins (Python dict key lookup for the
insertion-ordered dicts built by the script, whose keys are distinct). -/
def jlookup : List (String × JVal) → String → Option JVal
  | [], _ => none
  | (k, v) :: rest, key => if k = key then some v else jlookup rest key

/-! ## Helpers mirroring Python string builtins used by the script

All are written over the character list of the string with structural
recursion, so that concrete inputs evaluate inside the kernel. -/

/-- Python `str.lower()` (ASCII). -/
def pyLower (s : String) : String := ⟨s.data.map Char.toLower⟩

/-- Python `s[:n]` on a string. -/
def pyTake (s : String) (n : Nat) : String := ⟨s.data.take n⟩

/-- Python `s[n:]` on a string. -/
def pyDrop (s : String) (n : Nat) : String := ⟨s.data.drop n⟩

def replaceCharAux (pat : Char) (rep : List Char) : List Char → List Char
  | [] => []
  | c :: cs => (if c = pat then rep else [c]) ++ replaceCharAux pat rep cs

/-- Python `s.replace(pat, rep)` for a one-character pattern `pat`. -/
def replaceChar (s : String) (pat : Char) (rep : String) : String :=
  ⟨replaceCharAux pat rep.data s.data⟩

def splitOnCharAux (sep : Char) : List Char → List (List Char)
  | [] => [[]]
  | c :: cs =>
    if c = sep then [] :: splitOnCharAux sep cs
    else
      match splitOnCharAux sep cs with
      | [] => [[c]]
      | g :: gs => (c :: g) :: gs

/-- Python `s.split(sep)` for a one-character separator. -/
def splitOnChar (s : String) (sep : Char) : List String :=
  (splitOnCharAux sep s.data).map (fun cs => ⟨cs⟩)

/-- Python `str.title()` (ASCII): a letter that follows a non-letter is
uppercased, every other letter is lowercased. -/
def pytitleAux : Bool → List Char → List Char
  | _, [] => []
  | prevAlpha, c :: cs =>
    let c' := if c.isAlpha then (if prevAlpha then c.toLower else c.toUpper) else c
    c' :: pytitleAux c.isAlpha cs

def pytitle (s : String) : String := ⟨pytitleAux false s.data⟩

/-- Python `str.find(pat)`: index of the first occurrence of `pat`, `-1` when
absent. -/
def pyFind (s pat : String) : Int :=
  match (List.range (s.data.length + 1)).find?
      (fun i => (s.data.drop i).take pat.data.length = pat.data) with
  | some i => (i : Int)
  | none => -1

/-! ## `rpi/rpi.py`: `next_power_of_two` (lines 18-40)

    if x == 0: res = 1
    else:      res = 1 << (x - 1).bit_length()
    magnitude = 0
    while res >= 1024:
        res /= 1024
        magnitude += 1
    return (int(res), magnitude)

`res` is always a power of two, and the loop divides only while it is a
multiple of 1024, so the source's division is exact; it is modelled as `Nat`
division. -/

/-- Python `int.bit_length()` on a non-negative int, via halving with an
explicit iteration bound (`n` halves to `0` in at most `n + 1` steps). -/
def bitLenGo : Nat → Nat → Nat
  | 0, _ => 0
  | fuel + 1, n => if n = 0 then 0 else bitLenGo fuel (n / 2) + 1

def pyBitLength (n : Nat) : Nat := bitLenGo (n + 1) n

/-- The `while res >= 1024` loop body of `next_power_of_two`, with an explicit
iteration bound (the loop divides by 1024 each pass, so `res` passes more than
suffice): returns the final `res` and the number of divisions (`magnitude`). -/
def reduce1024Go : Nat → Nat → Nat × Nat
  | 0, res => (res, 0)
  | fuel + 1, res =>
    if 1024 ≤ res then
      let p := reduce1024Go fuel (res / 1024)
      (p.1, p.2 + 1)
    else
      (res, 0)

def reduce1024 (res : Nat) : Nat × Nat := reduce1024Go res res

def next_power_of_two (x : Nat) : Nat × Nat :=
  let res := if x = 0 then 1 else 1 <<< pyBitLength (x - 1)
  reduce1024 res

/-! ## `rpi-monitor.py`: the device unique id (lines 934-938)

    mac_basic = rpi_mac.lower().replace(":", "")
    mac_left = mac_basic[:6]
    mac_right = mac_basic[6:]
    uniqID = "RPi-{}Mon{}".format(mac_left, mac_right)
-/

def mac_basic (rpi_mac : String) : String := replaceChar (pyLower rpi_mac) ':' ""

def mac_left (rpi_mac : String) : String := pyTake (mac_basic rpi_mac) 6

def mac_right (rpi_mac : String) : String := pyDrop (mac_basic rpi_mac) 6

def uniqID (rpi_mac : String) : String :=
  "RPi-" ++ mac_left rpi_mac ++ "Mon" ++ mac_right rpi_mac

/-! ## Configuration validation and startup order (`rpi-monitor.py` lines 180-219, 905-912)

Range constants (lines 180-201):
  `min_interval_in_minutes = 1`, `max_interval_in_minutes = 20`
  `min_update_days = 1`, `max_update_days = 7`
  `min_upgrade_days = 1`, `max_upgrade_days = 14`
The three range checks (lines 205-219) run in script order and call
`sys.exit(1)`; `mqtt_client.connect` (line 906) comes only after them. -/

def min_interval_in_minutes : Int := 1
def max_interval_in_minutes : Int := 20
def min_update_days : Int := 1
def max_update_days : Int := 7
def min_upgrade_days : Int := 1
def max_upgrade_days : Int := 14

/-- The interval settings read by `ConfigParser.getint` (Python ints). -/
structure Config where
  OS_update_days : Int
  OS_upgrade_days : Int
  interval_in_minutes : Int
deriving Repr, DecidableEq

/-- The `#  check configuration` block, lines 205-219: first failing check
exits with code 1. -/
def checkConfig (c : Config) : Except Nat Unit :=
  if c.OS_update_days < min_update_days ∨ c.OS_update_days > max_update_days then
    Except.error 1
  else if c.OS_upgrade_days < min_upgrade_days ∨ c.OS_upgrade_days > max_upgrade_days then
    Except.error 1
  else if c.interval_in_minutes < min_interval_in_minutes ∨
      c.interval_in_minutes > max_interval_in_minutes then
    Except.error 1
  else
    Except.ok ()

inductive StartupEvent where
  | exitFatal (code : Nat)
  | connectAttempt
deriving Repr, DecidableEq

/-- Observable startup order of the script: the configuration checks
(lines 205-219) run first; only when they pass does control flow reach
`mqtt_client.connect` (line 906). `sys.exit` terminates the process, so a
failed check produces no further events. -/
def startupTrace (c : Config) : List StartupEvent :=
  match checkConfig c with
  | Except.error code => [StartupEvent.exitFatal code]
  | Except.ok _ => [StartupEvent.connectAttempt]

/-! ## Timer rearm discipline (`rpi-monitor.py` lines 849-874, 1091-1117)

A `threading.Timer` object is referenced by one module-level variable
(`aliveTimer` / `endPeriodTimer`). `stop*Timer` cancels the currently
referenced timer; `start*Timer` first calls `stop*Timer`, then allocates a
fresh timer and starts it. The state tracks how many scheduled fires are
live: `current` says whether the currently referenced timer is pending, and
`others` counts pending fires of timers no longer referenced (a timer that
was replaced without being cancelled first). -/

structure TimerState where
  others : Nat
  current : Bool
deriving Repr, DecidableEq

/-- Live scheduled fires of the timer. -/
def livePending (t : TimerState) : Nat := t.others + (if t.current then 1 else 0)

/-- `stopPeriodTimer` (lines 1101-1106): `endPeriodTimer.cancel()`, then
`periodTimeRunningStatus = False`. -/
def stopPeriodTimer (t : TimerState) : TimerState := { t with current := false }

/-- `startPeriodTimer` (lines 1091-1098): `stopPeriodTimer()`, then a new
`threading.Timer(...)` is assigned to `endPeriodTimer` (the old, now
cancelled, object is dropped) and started. -/
def startPeriodTimer (t : TimerState) : TimerState :=
  let t1 := stopPeriodTimer t
  { others := t1.others + (if t1.current then 1 else 0), current := true }

/-- `stopAliveTimer` (lines 859-864): same cancel discipline
(`aliveTimer.cancel()`); the assignment on line 863 misspells the status
flag (`aliveTimerRunningsStatus`), which does not affect the pending timer. -/
def stopAliveTimer (t : TimerState) : TimerState := { t with current := false }

/-- `startAliveTimer` (lines 849-856): `stopAliveTimer()`, then a new timer
is assigned to `aliveTimer` and started. -/
def startAliveTimer (t : TimerState) : TimerState :=
  let t1 := stopAliveTimer t
  { others := t1.others + (if t1.current then 1 else 0), current := true }

/-- Initial state: the timer object is created (line 1115 / line 872) but
never started. -/
def initTimerState : TimerState := { others := 0, current := false }

/-- N successive rearms with no intervening fire. -/
def rearmN (rearm : TimerState → TimerState) : Nat → TimerState → TimerState
  | 0, t => t
  | n + 1, t => rearmN rearm n (rearm t)

/-! ## Stall-mode reporting (`rpi-monitor.py` lines 1114-1118, 1285-1298)

`handle_interrupt(channel)` always calls `update_values()` (refresh of the
dynamic metrics); it publishes (spawns `send_status`) and sets
`reported_first_time = True` exactly when
`opt_stall == False or reported_first_time == False and opt_stall == True`
(Python `and` binds tighter than `or`); otherwise it only logs the skip. -/

structure FireResult where
  refreshed : Bool
  published : Bool
  reported_after : Bool
deriving Repr, DecidableEq

/-- One call of `handle_interrupt`, as a function of the `opt_stall` flag and
the `reported_first_time` global before the call. -/
def handle_interrupt (opt_stall reported_first_time : Bool) : FireResult :=
  if !opt_stall || (!reported_first_time && opt_stall) then
    { refreshed := true, published := true, reported_after := true }
  else
    { refreshed := true, published := false, reported_after := reported_first_time }

/-- A sequence of `n` timer fires, each handled by `handle_interrupt`,
threading the `reported_first_time` global. Returns the per-fire results and
the final flag. -/
def runFires (opt_stall : Bool) : Nat → Bool → List FireResult × Bool
  | 0, s => ([], s)
  | n + 1, s =>
    let r := handle_interrupt opt_stall s
    let p := runFires opt_stall n r.reported_after
    (r :: p.1, p.2)

/-- How many of `n` fires published a snapshot report. -/
def publishCount (opt_stall : Bool) (n : Nat) (s : Bool) : Nat :=
  ((runFires opt_stall n s).1.filter (fun r => r.published)).length

/-! ## JSON serialization (`json.dumps` with its default separators) -/

def quoteChar : Char := Char.ofNat 34
def backslashChar : Char := Char.ofNat 92

def hexDigit (n : Nat) : Char :=
  if n < 10 then Char.ofNat (48 + n) else Char.ofNat (87 + n)

def hex4 (n : Nat) : String :=
  ⟨[hexDigit (n / 4096 % 16), hexDigit (n / 256 % 16), hexDigit (n / 16 % 16),
    hexDigit (n % 16)]⟩

/-- One character of `json.dumps` output with `ensure_ascii=True`. -/
def jsonEscapeChar (c : Char) : List Char :=
  if c = quoteChar then [backslashChar, quoteChar]
  else if c = backslashChar then [backslashChar, backslashChar]
  else if c = Char.ofNat 10 then [backslashChar, 'n']
  else if c = Char.ofNat 9 then [backslashChar, 't']
  else if c = Char.ofNat 13 then [backslashChar, 'r']
  else if c = Char.ofNat 8 then [backslashChar, 'b']
  else if c = Char.ofNat 12 then [backslashChar, 'f']
  else if c.toNat < 32 ∨ c.toNat > 126 then backslashChar :: 'u' :: (hex4 c.toNat).data
  else [c]

def jsonEscape (s : String) : String := ⟨(s.data.map jsonEscapeChar).flatten⟩

/-- `json.dumps` of a `JVal` (default separators `", "` and `": "`). -/
def dumps : JVal → String
  | JVal.str s => String.singleton quoteChar ++ jsonEscape s ++ String.singleton quoteChar
  | JVal.num n => toString n
  | JVal.arr xs =>
    "[" ++ String.intercalate ", " (xs.attach.map (fun x => dumps x.1)) ++ "]"
  | JVal.obj fs =>
    "\x7b" ++ String.intercalate ", "
      (fs.attach.map (fun p =>
        String.singleton quoteChar ++ jsonEscape p.1.1 ++ String.singleton quoteChar ++
          ": " ++ dumps p.1.2)) ++ "\x7d"
termination_by v => sizeOf v
decreasing_by
  · have := List.sizeOf_lt_of_mem x.2
    simp only [JVal.arr.sizeOf_spec]
    omega
  · have := List.sizeOf_lt_of_mem p.2
    have h2 : sizeOf p.1.2 < sizeOf p.1 := by
      cases p.1 with
      | mk a b => simp only [Prod.mk.sizeOf_spec]; omega
    simp only [JVal.obj.sizeOf_spec]
    omega

/-- Python dict assignment `d[k] = v` on an insertion-ordered dict: an
existing key keeps its position, a new key is appended. -/
def dictInsert (d : List (String × JVal)) (k : String) (v : JVal) :
    List (String × JVal) :=
  if d.any (fun p => p.1 = k) then d.map (fun p => if p.1 = k then (k, v) else p)
  else d ++ [(k, v)]

/-! ## Device identity, dynamic metrics, and the static literals of the script -/

def script_info : String := "rpi-monitor.py v1.6.1"
/-- `script_info.replace('.py', '')` (line 243). -/
def rpi_mqtt_script : String := "rpi-monitor v1.6.1"

def lwt_online_val : String := "online"
def lwt_offline_val : String := "offline"

def LD_MONITOR : String := "monitor"
def LD_CPU_TEMP : String := "temp_cpu_c"
def LD_FS_USED : String := "disk_used"
def LD_CPU_USAGE_1M : String := "cpu_load_1m"
def LD_CPU_USAGE_5M : String := "cpu_load_5m"
def LD_MEM_USED : String := "ram_used_prcnt"
def LD_SECURITY_STATUS : String := "os_security_status"
def LDS_PAYLOAD_NAME : String := "info"

/-- Values fixed during startup, before discovery and reporting begin. -/
structure DeviceIdentity where
  rpi_hostname : String
  rpi_fqdn : String
  rpi_mac : String
  rpi_model : String
  rpi_os_release : String
  rpi_os_version : String
  cpu_architecture : String
  /-- `getDeviceCPUInfo()` result (string-valued ordered dict). -/
  rpi_cpu_model : List (String × String)
  sensor_name : String
  /-- `base_topic` as read from config (line 170), before line 1014 extends it. -/
  base_topic_cfg : String
  discoveryPref : String
  interval_in_minutes : Int
deriving Repr, DecidableEq

/-- The module-level metric variables refreshed by `update_values()` each
reporting cycle, plus the cycle timestamp. -/
structure DynMetrics where
  timestamp : String
  rpi_uptime : String
  rpi_cpu_temp : String
  rpi_gpu_temp : String
  rpi_ram_used : String
  rpi_fs_used : String
  rpi_fs_space : String
  rpi_cpu_usage_1m : String
  rpi_cpu_usage_5m : String
  rpi_timesincelastUpdateDate : String
  rpi_timesincelastUpgradeDate : String
  /-- `rpi_security[0][1]`. -/
  update_status : String
  /-- `rpi_security[1][1]`. -/
  upgrade_status : String
  /-- `rpi_fs_mount`: `none` models the literal string `'none'`, otherwise the
  list of `"device,mountpoint"` strings. -/
  rpi_fs_mount : Option (List String)
  /-- `rpi_interfaces`: tuples `(iface, 'IP'|'MAC', value)`. -/
  rpi_interfaces : List (String × String × String)
deriving Repr, DecidableEq

structure ScriptState where
  ident : DeviceIdentity
  dyn : DynMetrics
deriving Repr, DecidableEq

/-- Line 1014: `base_topic = '{}/sensor/{}'.format(base_topic, sensor_name.lower())`. -/
def base_topic (i : DeviceIdentity) : String :=
  i.base_topic_cfg ++ "/sensor/" ++ pyLower i.sensor_name

/-- Line 1015: `values_topic_rel = '{}/{}'.format('~', LD_MONITOR)`. -/
def values_topic_rel : String := "~/" ++ LD_MONITOR

/-- Line 1016. -/
def values_topic (i : DeviceIdentity) : String := base_topic i ++ "/" ++ LD_MONITOR

/-- Line 1017. -/
def activity_topic_rel : String := "~/status"

/-- Line 882: `lwt_topic = '{}/sensor/{}/status'.format(base_topic, sensor_name.lower())`. -/
def lwt_topic (i : DeviceIdentity) : String :=
  i.base_topic_cfg ++ "/sensor/" ++ pyLower i.sensor_name ++ "/status"

/-- Lines 950-954: icon choice by `rpi_cpu_model["Architecture"].find('ARMv') > 0`. -/
def cpu_icon (i : DeviceIdentity) : String :=
  if pyFind i.cpu_architecture "ARMv" > 0 then "mdi:cpu-32-bit" else "mdi:cpu-64-bit"

/-! ## The static entity-description table `detectorValues` (lines 958-1010) -/

/-- One `detectorValues` entry: the `params` dict of a sensor. Marker keys
whose value is always `"yes"` are booleans. -/
structure EntityParams where
  title : String
  topic_category : String
  device_class : Option String := none
  device_ident : Option String := none
  has_no_title_pre : Bool := false
  unit : Option String := none
  icon : Option String := none
  has_json_attr : Bool := false
  json_value : Option String := none
deriving Repr, DecidableEq

def detectorValues (rpi_hostname cpu_icon : String) : List (String × EntityParams) :=
  [(LD_MONITOR,
    { title := rpi_hostname ++ " RPi Monitor"
      topic_category := "sensor"
      device_class := some "timestamp"
      device_ident := some ("Raspberry Pi " ++ pytitle rpi_hostname)
      has_no_title_pre := true
      icon := some "mdi:rapsberry-pi"
      has_json_attr := true
      json_value := some "Timestamp" }),
   (LD_CPU_TEMP,
    { title := rpi_hostname ++ " CPU Temp"
      topic_category := "sensor"
      device_class := some "temperature"
      has_no_title_pre := true
      unit := some "°C"
      icon := some "mdi:thermometer"
      json_value := some "Temp_CPU_c" }),
   (LD_CPU_USAGE_1M,
    { title := pytitle rpi_hostname ++ " CPU Load (1 min)"
      topic_category := "sensor"
      has_no_title_pre := true
      unit := some "%"
      icon := some cpu_icon
      json_value := some "CPU_Load_1_min" }),
   (LD_CPU_USAGE_5M,
    { title := pytitle rpi_hostname ++ " CPU Load (5 min)"
      topic_category := "sensor"
      has_no_title_pre := true
      unit := some "%"
      icon := some cpu_icon
      json_value := some "CPU_Load_5_min" }),
   (LD_MEM_USED,
    { title := rpi_hostname ++ " Memory Usage"
      topic_category := "sensor"
      has_no_title_pre := true
      unit := some "%"
      icon := some "mdi:memory"
      json_value := some "RAM_used_prcnt" }),
   (LD_FS_USED,
    { title := rpi_hostname ++ " Disk Usage"
      topic_category := "sensor"
      has_no_title_pre := true
      unit := some "%"
      icon := some "mdi:sd"
      json_value := some "FS_used_prcnt" })]

/-- The `json_value` extraction keys of the discovery table. -/
def tableJsonValues (rpi_hostname cpu_icon : String) : List String :=
  (detectorValues rpi_hostname cpu_icon).filterMap (fun p => p.2.json_value)

/-! ## Discovery payload construction (lines 1021-1075) -/

/-- The per-sensor discovery payload dict built by the loop at lines
1024-1058, with the source's conditional key insertion and order. -/
def sensorPayload (i : DeviceIdentity) (sensor : String) (params : EntityParams) :
    List (String × JVal) :=
  [("name", JVal.str (if params.has_no_title_pre then pytitle params.title
      else pytitle i.sensor_name ++ " " ++ pytitle params.title)),
   ("uniq_id", JVal.str (uniqID i.rpi_mac ++ "_" ++ pyLower sensor))]
  ++ (match params.device_class with
      | some dc => [("dev_cla", JVal.str dc)]
      | none => [])
  ++ (match params.unit with
      | some u => [("unit_of_measurement", JVal.str u)]
      | none => [])
  ++ (match params.json_value with
      | some jv =>
        [("stat_t", JVal.str values_topic_rel),
         ("val_tpl", JVal.str ("\x7b\x7b value_json." ++ LDS_PAYLOAD_NAME ++ "." ++ jv
           ++ " \x7d\x7d"))]
      | none => [])
  ++ [("~", JVal.str (base_topic i)),
      ("pl_avail", JVal.str lwt_online_val),
      ("pl_not_avail", JVal.str lwt_offline_val)]
  ++ (match params.icon with
      | some ic => [("ic", JVal.str ic)]
      | none => [])
  ++ [("avty_t", JVal.str activity_topic_rel)]
  ++ (if params.has_json_attr then
        [("json_attr_t", JVal.str values_topic_rel),
         ("json_attr_tpl", JVal.str ("\x7b\x7b value_json." ++ LDS_PAYLOAD_NAME
           ++ " | tojson \x7d\x7d"))]
      else [])
  ++ [("dev", match params.device_ident with
      | some di =>
        JVal.obj [("identifiers", JVal.arr [JVal.str (uniqID i.rpi_mac)]),
                  ("manufacturer", JVal.str "Raspbery Pi (Trading) Ltd."),
                  ("name", JVal.str di),
                  ("model", JVal.str i.rpi_model),
                  ("sw_version", JVal.str (i.rpi_os_release ++ " " ++ i.rpi_os_version))]
      | none => JVal.obj [("identifiers", JVal.arr [JVal.str (uniqID i.rpi_mac)])])]

/-- Line 1022: the per-sensor discovery topic. -/
def sensorDiscoveryTopic (i : DeviceIdentity) (sensor : String) : String :=
  i.discoveryPref ++ "/sensor/" ++ pyLower i.sensor_name ++ "/" ++ sensor ++ "/config"

/-- Lines 1063-1074: the binary_sensor discovery payload. -/
def binarySensorPayload (i : DeviceIdentity) : List (String × JVal) :=
  [("name", JVal.str (pytitle i.rpi_hostname ++ " Security Status")),
   ("uniq_id", JVal.str (uniqID i.rpi_mac ++ "_" ++ LD_SECURITY_STATUS)),
   ("dev_cla", JVal.str "safety"),
   ("payload_on", JVal.str "on"),
   ("payload_off", JVal.str "off"),
   ("state_topic", JVal.str ("home/nodes/binary_sensor/" ++ pyLower i.sensor_name
     ++ "/status")),
   ("json_attr_t", JVal.str ("home/nodes/binary_sensor/" ++ pyLower i.sensor_name)),
   ("dev", JVal.obj [("identifiers", JVal.arr [JVal.str (uniqID i.rpi_mac)])])]

/-- Line 1063: the binary_sensor discovery topic. -/
def binarySensorDiscoveryTopic (i : DeviceIdentity) : String :=
  i.discoveryPref ++ "/binary_sensor/" ++ pyLower i.sensor_name ++ "/config"

/-- The full discovery announcement: for every entity its topic and the
serialized (`json.dumps`) payload body, in publication order. Reads only the
startup-fixed identity of the script state. -/
def discoveryMessages (st : ScriptState) : List (String × String) :=
  let i := st.ident
  ((detectorValues i.rpi_hostname (cpu_icon i)).map (fun p =>
    (sensorDiscoveryTopic i p.1, dumps (JVal.obj (sensorPayload i p.1 p.2)))))
  ++ [(binarySensorDiscoveryTopic i, dumps (JVal.obj (binarySensorPayload i)))]

/-! ## The snapshot payload of `send_status` (lines 1158-1199) -/

/-- `getFSmountDictionary` (lines 1233-1239); the source indexes
`lineParts[0]` and `lineParts[1]` of each `"device,mountpoint"` entry. -/
def getFSmountDictionary (fs_mount : List String) : List (String × JVal) :=
  fs_mount.foldl (fun acc s =>
    let lineParts := splitOnChar s ','
    dictInsert acc (lineParts.getD 0 "") (JVal.str ("-> " ++ lineParts.getD 1 ""))) []

/-- One iteration of the `getNetworkDictionary` loop (lines 1246-1257), on
state `(networkDict, priorIFKey, tmpData)`. -/
def networkStep (st : List (String × JVal) × String × List (String × JVal))
    (currTuple : String × String × String) :
    List (String × JVal) × String × List (String × JVal) :=
  let networkDict := st.1
  let priorIFKey := st.2.1
  let tmpData := st.2.2
  let currIFKey := currTuple.1
  let priorIFKey := if priorIFKey = "" then currIFKey else priorIFKey
  let next :=
    if currIFKey ≠ priorIFKey then
      if priorIFKey ≠ "" then
        (dictInsert networkDict priorIFKey (JVal.obj tmpData), currIFKey,
          ([] : List (String × JVal)))
      else (networkDict, priorIFKey, tmpData)
    else (networkDict, priorIFKey, tmpData)
  (next.1, next.2.1, dictInsert next.2.2 currTuple.2.1 (JVal.str currTuple.2.2))

/-- `getNetworkDictionary` (lines 1242-1260). -/
def getNetworkDictionary (rpi_interfaces : List (String × String × String)) :
    List (String × JVal) :=
  let st := rpi_interfaces.foldl networkStep ([], "", [])
  dictInsert st.1 st.2.1 (JVal.obj st.2.2)

/-- Python `int(...)` on the numeric string held by `rpi_fs_space`. -/
def pyIntOfString (s : String) : Int := (s.toInt?).getD 0

/-- The `rpiData` ordered dict of `send_status` (lines 1162-1194), key by key
in source order. -/
def rpiData (st : ScriptState) : List (String × JVal) :=
  let i := st.ident
  let d := st.dyn
  [("Timestamp", JVal.str d.timestamp),
   ("Raspberry Model", JVal.str i.rpi_model),
   ("Hostname", JVal.str i.rpi_hostname),
   ("Fqdn", JVal.str i.rpi_fqdn),
   ("OS Release", JVal.str i.rpi_os_release),
   ("OS Version", JVal.str i.rpi_os_version),
   ("OS_Last_Update", JVal.str (d.rpi_timesincelastUpdateDate ++ " ago - "
     ++ d.update_status)),
   ("OS_Last_Upgrade", JVal.str (d.rpi_timesincelastUpgradeDate ++ " ago - "
     ++ d.upgrade_status)),
   ("Up_time", JVal.str d.rpi_uptime),
   ("FS_total_gb", JVal.num (pyIntOfString d.rpi_fs_space)),
   ("FS_used_prcnt", JVal.str d.rpi_fs_used),
   ("RAM_used_prcnt", JVal.str d.rpi_ram_used),
   ("Temp_CPU_c", JVal.str d.rpi_cpu_temp),
   ("Temp GPU [°C]", JVal.str d.rpi_gpu_temp),
   ("CPU_Load_1_min", JVal.str d.rpi_cpu_usage_1m),
   ("CPU_Load_5_min", JVal.str d.rpi_cpu_usage_5m),
   ("Reporter", JVal.str rpi_mqtt_script),
   ("Reporter_Interval [min]", JVal.num i.interval_in_minutes),
   ("CPU", JVal.obj (i.rpi_cpu_model.map (fun p => (p.1, JVal.str p.2)))),
   ("FS_mounted", match d.rpi_fs_mount with
     | none => JVal.str "none"
     | some lst => JVal.obj (getFSmountDictionary lst)),
   ("Network Interfaces", JVal.obj (getNetworkDictionary d.rpi_interfaces))]

/-- `rpiTopDict` (lines 1196-1197): the wire payload wraps `rpiData` under the
envelope key `LDS_PAYLOAD_NAME = "info"`. -/
def rpiTopDict (st : ScriptState) : List (String × JVal) :=
  [(LDS_PAYLOAD_NAME, JVal.obj (rpiData st))]

/-- The extraction a discovery `val_tpl` template
(`value_json.info.<key>`) performs on the wire payload. -/
def extractEnvelope (wire : List (String × JVal)) (key : String) : Option JVal :=
  match jlookup wire LDS_PAYLOAD_NAME with
  | some (JVal.obj fields) => jlookup fields key
  | _ => none

/-! ## Publish call sites and their retained flags -/

inductive MsgKind where
  | discoveryConfig
  | aliveStatus
  | metricSnapshot
  | securityStatus
  | lwtWill
deriving Repr, DecidableEq

structure PublishCall where
  kind : MsgKind
  retained : Bool
deriving Repr, DecidableEq

/-- `publishAliveStatus` (line 840): `publish(lwt_topic, lwt_online_val, retain=False)`. -/
def publishAliveStatus_call : PublishCall := ⟨MsgKind.aliveStatus, false⟩

/-- Line 914, the online publish right after a successful connect: `retain=False`. -/
def initialOnline_call : PublishCall := ⟨MsgKind.aliveStatus, false⟩

/-- Line 1060, the per-sensor discovery config publish: `retain=True`. -/
def sensorDiscovery_call : PublishCall := ⟨MsgKind.discoveryConfig, true⟩

/-- Line 1075, the binary_sensor discovery config publish: `retain=True`. -/
def binarySensorDiscovery_call : PublishCall := ⟨MsgKind.discoveryConfig, true⟩

/-- `publishMonitorData` (line 1265), the periodic metric snapshot:
`retain=False`. -/
def publishMonitorData_call : PublishCall := ⟨MsgKind.metricSnapshot, false⟩

/-- `publishSecurityStatus` (line 1271): `retain=False`. -/
def publishSecurityStatus_call : PublishCall := ⟨MsgKind.securityStatus, false⟩

/-- Line 891: `mqtt_client.will_set(lwt_topic, lwt_offline_val, retain=True)` —
a last-will registration, emitted by the broker on ungraceful disconnect. -/
def will_set_registration : PublishCall := ⟨MsgKind.lwtWill, true⟩

/-- Every `mqtt_client.publish` call site of the script. -/
def publishCalls : List PublishCall :=
  [publishAliveStatus_call, initialOnline_call, sensorDiscovery_call,
   binarySensorDiscovery_call, publishMonitorData_call, publishSecurityStatus_call]

/-! ## Command dispatch -/

def lbrace : Char := Char.ofNat 123
def rbrace : Char := Char.ofNat 125

def substPlaceholderAux (payload : List Char) : List Char → List Char
  | [] => []
  | [c] => [c]
  | c :: d :: rest =>
    if c = lbrace ∧ d = rbrace then payload ++ substPlaceholderAux payload rest
    else c :: substPlaceholderAux payload (d :: rest)

/-- Substitution of the payload for each `\x7b\x7d` placeholder of a shell
action template (Python `template.format(payload)` for the single-placeholder
templates of the command whitelist). -/
def substPlaceholder (tpl payload : String) : String :=
  ⟨substPlaceholderAux payload.data tpl.data⟩

structure DispatchResult where
  /-- The shell commands executed, in order. -/
  executed : List String
  /-- Invalid-command warnings logged. -/
  warnings : Nat
deriving Repr, DecidableEq

/-- Modelled from the spec: the CommandDispatcher of §4.4 and §8 is not part
of the files under `src/` (this revision of the monitor script registers no
message callback); its contract is taken from the spec's words. On message
arrival: the command name is the final topic segment; a whitelisted name has
the payload substituted into its shell template and executed once; the
synthetic `status` command is ignored; any other name logs one
invalid-command warning and takes no action. -/
def on_command_message (whitelist : List (String × String)) (topic payload : String) :
    DispatchResult :=
  let cmdName := (splitOnChar topic '/').getLastD ""
  match whitelist.find? (fun e => e.1 == cmdName) with
  | some e => { executed := [substPlaceholder e.2 payload], warnings := 0 }
  | none =>
    if cmdName == "status" then { executed := [], warnings := 0 }
    else { executed := [], warnings := 1 }

/-! ## `rpi/rpi.py`: `get_os_pending_updates` (lines 441-461) -/

structure AptChange where
  name : String
  installed : String
  candidate : String
deriving Repr, DecidableEq

/-- The environment `get_os_pending_updates` runs in: whether `import apt`
succeeded (lines 9-13) and the upgradable packages apt would report. -/
structure AptEnv where
  apt_available : Bool
  changes : List AptChange
deriving Repr, DecidableEq

/-- `change.installed.split('=')[1]` / `change.candidate.split('=')[1]`. -/
def versionPart (s : String) : String := (splitOnChar s '=').getD 1 ""

def dictInsertS (d : List (String × String)) (k v : String) : List (String × String) :=
  if d.any (fun p => p.1 = k) then d.map (fun p => if p.1 = k then (k, v) else p)
  else d ++ [(k, v)]

/-- `get_os_pending_updates`: the whole body is guarded by
`if apt_available:`; with apt absent the function falls off the end and
Python returns `None`, modelled as `none`. -/
def get_os_pending_updates (env : AptEnv) : Option (Nat × List (String × String)) :=
  if env.apt_available then
    some (env.changes.length,
      env.changes.foldl (fun acc ch =>
        dictInsertS acc ch.name (versionPart ch.installed ++ " -> "
          ++ versionPart ch.candidate)) [])
  else
    none

/-! ## A concrete script state, used to instantiate universally quantified
theorems at explicit inputs -/

def sampleIdentity : DeviceIdentity :=
  { rpi_hostname := "pi"
    rpi_fqdn := "pi.local"
    rpi_mac := "b8:27:eb:12:34:56"
    rpi_model := "RPi 4B r1.1"
    rpi_os_release := "Raspbian GNU/Linux 11"
    rpi_os_version := "6.1.21-v8+"
    cpu_architecture := "armv7l"
    rpi_cpu_model := [("Architecture", "armv7l"), ("Core(s)", "4")]
    sensor_name := "rpi-pi"
    base_topic_cfg := "home/nodes"
    discoveryPref := "homeassistant"
    interval_in_minutes := 5 }

def sampleDyn : DynMetrics :=
  { timestamp := "2026-10-12T10:00:00+00:00"
    rpi_uptime := "1d 2h03m"
    rpi_cpu_temp := "45.0"
    rpi_gpu_temp := "44.0"
    rpi_ram_used := "23"
    rpi_fs_used := "37.5"
    rpi_fs_space := "59"
    rpi_cpu_usage_1m := "12.0"
    rpi_cpu_usage_5m := "8.0"
    rpi_timesincelastUpdateDate := "3h10m"
    rpi_timesincelastUpgradeDate := "1d 2h00m"
    update_status := "safe"
    upgrade_status := "safe"
    rpi_fs_mount := none
    rpi_interfaces := [("eth0", "IP", "192.168.1.2"), ("eth0", "MAC", "B8:27:EB:12:34:56")] }

def sampleState : ScriptState := { ident := sampleIdentity, dyn := sampleDyn }

/-- The `LD_MONITOR` entry of `detectorValues "pi" _`, written out. -/
def sampleMonitorParams : EntityParams :=
  { title := "pi RPi Monitor"
    topic_category := "sensor"
    device_class := some "timestamp"
    device_ident := some "Raspberry Pi Pi"
    has_no_title_pre := true
    icon := some "mdi:rapsberry-pi"
    has_json_attr := true
    json_value := some "Timestamp" }

end RpiMonitor

namespace RpiMonitor

/-! # Theorems settling the claims -/

/-- Claim C4, the claim as stated: for MAC `b8:27:eb:12:34:56` the computed
unique id is NOT `RPi-b827eb123456Mon` (the halves concatenated, wrapped by
prefix and infix literals). -/
theorem uniqID_claim_counterexample :
    uniqID "b8:27:eb:12:34:56" ≠ "RPi-b827eb123456Mon" := by decide

/-- Claim C4 (amended): `uniqID` places the literal `Mon` between the two
6-character halves of the lowercased, colon-stripped MAC:
`RPi-` ++ left half ++ `Mon` ++ right half = `RPi-b827ebMon123456`. -/
theorem uniqID_infix_between_halves :
    uniqID "b8:27:eb:12:34:56" = "RPi-b827ebMon123456" ∧
    mac_left "b8:27:eb:12:34:56" = "b827eb" ∧
    mac_right "b8:27:eb:12:34:56" = "123456" := by decide

/-- Claim C6: discovery payload generation is deterministic — the discovery
topics and serialized payload bodies depend only on the startup-fixed device
identity, so two runs over states that differ in every dynamic metric produce
byte-identical messages. -/
theorem discovery_deterministic :
    ∀ (i : DeviceIdentity) (d1 d2 : DynMetrics),
      discoveryMessages { ident := i, dyn := d1 } =
        discoveryMessages { ident := i, dyn := d2 } := by
  intro i d1 d2
  rfl

/-- Claim C7, the claim as stated: it is not the case that every discovery
config and every liveness/availability status publish carries the retained
flag — `publishAliveStatus` (line 840) publishes the online status with
`retain=False`. -/
theorem retained_claim_counterexample :
    ¬ (∀ p ∈ publishCalls,
        (p.kind = MsgKind.discoveryConfig ∨ p.kind = MsgKind.aliveStatus) →
        p.retained = true) := by decide

/-- Claim C7 (amended): among the script's publish calls exactly the discovery
config messages are retained; the alive/online status publishes, metric
snapshots and security statuses are all non-retained; the retained offline
availability value exists only as the last-will registration. -/
theorem retained_flags_amended :
    (∀ p ∈ publishCalls, (p.retained = true ↔ p.kind = MsgKind.discoveryConfig)) ∧
    will_set_registration.retained = true := by decide

/-- Extraction through the `info` envelope of the wire payload agrees with
lookup in the in-memory `rpiData` dict, for every key. -/
theorem extractEnvelope_rpiTopDict (st : ScriptState) (key : String) :
    extractEnvelope (rpiTopDict st) key = jlookup (rpiData st) key := by
  simp [extractEnvelope, rpiTopDict, jlookup, LDS_PAYLOAD_NAME]

/-- Claim C5: for every discovery-table entity with a `val_tpl` extraction key
(`json_value`), applying the template's path (`value_json.info.<key>`) to the
serialized snapshot envelope yields exactly the field `send_status` computed —
the key is present in the published snapshot under `info` and its value is
unchanged. -/
theorem val_tpl_roundtrip :
    ∀ (st : ScriptState) (sensor : String) (params : EntityParams) (jv : String),
      (sensor, params) ∈ detectorValues st.ident.rpi_hostname (cpu_icon st.ident) →
      params.json_value = some jv →
      extractEnvelope (rpiTopDict st) jv = jlookup (rpiData st) jv ∧
      (jlookup (rpiData st) jv).isSome = true := by
  intro st sensor params jv hmem hjv
  refine ⟨extractEnvelope_rpiTopDict st jv, ?_⟩
  simp only [detectorValues, LD_MONITOR, LD_CPU_TEMP, LD_CPU_USAGE_1M, LD_CPU_USAGE_5M,
    LD_MEM_USED, LD_FS_USED, List.mem_cons, List.mem_singleton, List.not_mem_nil,
    or_false, Prod.mk.injEq] at hmem
  rcases hmem with ⟨-, hp⟩ | ⟨-, hp⟩ | ⟨-, hp⟩ | ⟨-, hp⟩ | ⟨-, hp⟩ | ⟨-, hp⟩ <;>
    subst hp <;>
    simp only [Option.some.injEq] at hjv <;>
    subst hjv <;>
    simp [rpiData, jlookup]

/-- Claim C5 at the concrete state `sampleState` and the `monitor` entity's
extraction key `Timestamp`. -/
theorem val_tpl_roundtrip_instance :
    extractEnvelope (rpiTopDict sampleState) "Timestamp" =
      jlookup (rpiData sampleState) "Timestamp" ∧
    (jlookup (rpiData sampleState) "Timestamp").isSome = true :=
  val_tpl_roundtrip sampleState LD_MONITOR sampleMonitorParams "Timestamp"
    (by decide) (by decide)

/-- Claim C8: when a command message's final topic segment matches a
whitelisted command name, the dispatcher executes exactly one shell command:
the command's template with the payload substituted for its placeholder. -/
theorem command_dispatch_exec_once :
    ∀ (whitelist : List (String × String)) (topic payload name tpl : String),
      (splitOnChar topic '/').getLastD "" = name →
      whitelist.find? (fun e => e.1 == name) = some (name, tpl) →
      (on_command_message whitelist topic payload).executed =
        [substPlaceholder tpl payload] ∧
      (on_command_message whitelist topic payload).executed.length = 1 ∧
      (on_command_message whitelist topic payload).warnings = 0 := by
  intro wl topic payload name tpl hlast hfind
  simp only [on_command_message]
  rw [hlast, hfind]
  exact ⟨rfl, rfl, rfl⟩

/-- Claim C8, the spec's scenario: topic
`home/nodes/command/rpi-foo/reboot_now`, payload `""`, whitelist entry
`reboot_now -> "/sbin/reboot \x7b\x7d"` — exactly one execution, of
`/sbin/reboot ` (trailing space from the empty payload). -/
theorem command_dispatch_exec_once_instance :
    (on_command_message [("reboot_now", "/sbin/reboot \x7b\x7d")]
        "home/nodes/command/rpi-foo/reboot_now" "").executed = ["/sbin/reboot "] ∧
    (on_command_message [("reboot_now", "/sbin/reboot \x7b\x7d")]
        "home/nodes/command/rpi-foo/reboot_now" "").executed.length = 1 := by
  have h := command_dispatch_exec_once [("reboot_now", "/sbin/reboot \x7b\x7d")]
    "home/nodes/command/rpi-foo/reboot_now" "" "reboot_now" "/sbin/reboot \x7b\x7d"
    (by decide) (by decide)
  exact ⟨by rw [h.1]; decide, h.2.1⟩

/-- In stall mode, once `reported_first_time` is set no further fire
publishes. -/
theorem publishCount_stalled (n : Nat) : publishCount true n true = 0 := by
  induction n with
  | zero => rfl
  | succ m ih =>
    simp only [publishCount, runFires, handle_interrupt] at ih ⊢
    simpa using ih

/-- Claim C1: with `opt_stall` set, any sequence of `n ≥ 1` timer fires
publishes exactly one snapshot report; the first fire publishes and sets
`reported_first_time`, and a fire in the already-reported state refreshes the
metrics but does not publish. -/
theorem stall_mode_single_report :
    ∀ n : Nat, 1 ≤ n →
      publishCount true n false = 1 ∧
      (handle_interrupt true false).published = true ∧
      (handle_interrupt true false).reported_after = true ∧
      (handle_interrupt true true).published = false ∧
      (handle_interrupt true true).refreshed = true := by
  intro n hn
  obtain ⟨m, rfl⟩ : ∃ m, n = m + 1 := ⟨n - 1, by omega⟩
  refine ⟨?_, rfl, rfl, rfl, rfl⟩
  have h := publishCount_stalled m
  simp only [publishCount, runFires, handle_interrupt] at h ⊢
  simpa using h

/-- Claim C1 at the concrete input `n = 3`. -/
theorem stall_mode_single_report_instance :
    publishCount true 3 false = 1 ∧
    (handle_interrupt true false).published = true ∧
    (handle_interrupt true false).reported_after = true ∧
    (handle_interrupt true true).published = false ∧
    (handle_interrupt true true).refreshed = true :=
  stall_mode_single_report 3 (by decide)

/-- A rearm keeps the count of orphaned pending timers and leaves the fresh
timer pending: the cancel inside the rearm always precedes the new schedule. -/
theorem rearm_step (rearm : TimerState → TimerState)
    (hre : ∀ t, rearm t = { others := t.others, current := true }) :
    ∀ (n : Nat) (t : TimerState),
      (rearmN rearm n t).others = t.others ∧
      (1 ≤ n → (rearmN rearm n t).current = true) := by
  intro n
  induction n with
  | zero => intro t; exact ⟨rfl, by omega⟩
  | succ m ih =>
    intro t
    have h1 := ih (rearm t)
    refine ⟨?_, fun _ => ?_⟩
    · simpa [rearmN, hre t] using h1.1
    · rcases Nat.eq_zero_or_pos m with hm | hm
      · subst hm; simp [rearmN, hre t]
      · simpa [rearmN] using h1.2 hm

/-- Claim C2: rearming the period timer (and likewise the alive timer)
`n ≥ 1` times in sequence without an intervening fire leaves exactly one
pending timer fire live. -/
theorem timer_rearm_single_pending :
    ∀ n : Nat, 1 ≤ n →
      livePending (rearmN startPeriodTimer n initTimerState) = 1 ∧
      livePending (rearmN startAliveTimer n initTimerState) = 1 := by
  intro n hn
  have hp := rearm_step startPeriodTimer (fun t => by
    simp [startPeriodTimer, stopPeriodTimer]) n initTimerState
  have ha := rearm_step startAliveTimer (fun t => by
    simp [startAliveTimer, stopAliveTimer]) n initTimerState
  constructor
  · simp only [livePending]
    rw [hp.1, hp.2 hn]
    decide
  · simp only [livePending]
    rw [ha.1, ha.2 hn]
    decide

/-- Claim C2 at the concrete input `n = 4`. -/
theorem timer_rearm_single_pending_instance :
    livePending (rearmN startPeriodTimer 4 initTimerState) = 1 ∧
    livePending (rearmN startAliveTimer 4 initTimerState) = 1 :=
  timer_rearm_single_pending 4 (by decide)

/-- Claim C3: a configuration whose reporting interval or update-check day
settings fall outside their documented ranges makes the script exit fatally
with code 1, and the startup trace contains no broker connect attempt — the
validation block strictly precedes `mqtt_client.connect`. -/
theorem config_out_of_range_exits_before_connect :
    ∀ c : Config,
      ((c.interval_in_minutes < min_interval_in_minutes ∨
        c.interval_in_minutes > max_interval_in_minutes) ∨
       (c.OS_update_days < min_update_days ∨ c.OS_update_days > max_update_days) ∨
       (c.OS_upgrade_days < min_upgrade_days ∨ c.OS_upgrade_days > max_upgrade_days)) →
      startupTrace c = [StartupEvent.exitFatal 1] ∧
      StartupEvent.connectAttempt ∉ startupTrace c := by
  intro c h
  simp only [min_interval_in_minutes, max_interval_in_minutes, min_update_days,
    max_update_days, min_upgrade_days, max_upgrade_days] at h
  have hc : checkConfig c = Except.error 1 := by
    unfold checkConfig
    simp only [min_interval_in_minutes, max_interval_in_minutes, min_update_days,
      max_update_days, min_upgrade_days, max_upgrade_days]
    split_ifs with h1 h2 h3
    · rfl
    · rfl
    · rfl
    · exfalso; omega
  rw [startupTrace, hc]
  exact ⟨rfl, by simp⟩

/-- Claim C3 at the concrete out-of-range configuration
`interval_in_minutes = 25` (valid update/upgrade day settings). -/
theorem config_out_of_range_exits_before_connect_instance :
    startupTrace { OS_update_days := 3, OS_upgrade_days := 7, interval_in_minutes := 25 } =
      [StartupEvent.exitFatal 1] ∧
    StartupEvent.connectAttempt ∉
      startupTrace { OS_update_days := 3, OS_upgrade_days := 7, interval_in_minutes := 25 } :=
  config_out_of_range_exits_before_connect
    { OS_update_days := 3, OS_upgrade_days := 7, interval_in_minutes := 25 }
    (Or.inl (Or.inr (by decide)))

/-- Claim C9: `get_os_pending_updates` does not return a pair in every
environment — with the `apt` module unavailable the body is skipped and the
function returns `None`; with apt available it returns the
(count, module-to-version-change map) pair. -/
theorem get_os_pending_updates_without_apt :
    get_os_pending_updates { apt_available := false, changes := [] } = none ∧
    get_os_pending_updates
      { apt_available := true,
        changes := [{ name := "vim", installed := "vim=1.0", candidate := "vim=1.1" }] } =
      some (1, [("vim", "1.0 -> 1.1")]) := by decide

/-! ## Claim C10: correctness of `next_power_of_two` -/

theorem bitLenGo_zero (fuel : Nat) : bitLenGo fuel 0 = 0 := by
  cases fuel <;> rfl

/-- With enough fuel, `bitLenGo` computes the bit length: for `n ≥ 1` it is
the unique `b ≥ 1` with `2 ^ (b - 1) ≤ n < 2 ^ b`. -/
theorem bitLenGo_spec :
    ∀ (fuel n : Nat), 1 ≤ n → n < 2 ^ fuel →
      1 ≤ bitLenGo fuel n ∧ 2 ^ (bitLenGo fuel n - 1) ≤ n ∧ n < 2 ^ bitLenGo fuel n := by
  intro fuel
  induction fuel with
  | zero => intro n h1 h2; simp at h2; omega
  | succ f ih =>
    intro n h1 h2
    have hn0 : ¬ n = 0 := by omega
    simp only [bitLenGo, hn0, if_false]
    by_cases hn1 : n = 1
    · subst hn1
      simp [bitLenGo_zero]
    · have hge2 : 2 ≤ n := by omega
      have hhalf1 : 1 ≤ n / 2 := by omega
      have hhalf2 : n / 2 < 2 ^ f := by
        have hp : 2 ^ (f + 1) = 2 * 2 ^ f := by ring
        omega
      obtain ⟨hb1, hb2, hb3⟩ := ih (n / 2) hhalf1 hhalf2
      set b := bitLenGo f (n / 2) with hbdef
      refine ⟨by omega, ?_, ?_⟩
      · have hp : 2 ^ (b - 1 + 1) = 2 * 2 ^ (b - 1) := by ring
        have he : b + 1 - 1 = b - 1 + 1 := by omega
        rw [he]
        omega
      · have hp : 2 ^ (b + 1) = 2 * 2 ^ b := by ring
        omega

theorem pyBitLength_spec (n : Nat) (h1 : 1 ≤ n) :
    1 ≤ pyBitLength n ∧ 2 ^ (pyBitLength n - 1) ≤ n ∧ n < 2 ^ pyBitLength n := by
  have h2 : n < 2 ^ (n + 1) :=
    lt_of_lt_of_le (Nat.lt_two_pow n) (Nat.pow_le_pow_right (by norm_num) (by omega))
  exact bitLenGo_spec (n + 1) n h1 h2

/-- With enough fuel, the division loop on a power of two splits the exponent
by 10: `reduce1024 (2 ^ k) = (2 ^ (k % 10), k / 10)`. -/
theorem reduce1024Go_pow2 :
    ∀ (fuel k : Nat), k / 10 ≤ fuel →
      reduce1024Go fuel (2 ^ k) = (2 ^ (k % 10), k / 10) := by
  intro fuel
  induction fuel with
  | zero =>
    intro k hk
    have e1 : k % 10 = k := by omega
    have e2 : k / 10 = 0 := by omega
    rw [reduce1024Go, e1, e2]
  | succ f ih =>
    intro k hk
    by_cases hsmall : k < 10
    · have hlt : 2 ^ k < 1024 := by
        calc 2 ^ k < 2 ^ 10 := Nat.pow_lt_pow_right (by norm_num) hsmall
        _ = 1024 := by norm_num
      have e1 : k % 10 = k := by omega
      have e2 : k / 10 = 0 := by omega
      simp only [reduce1024Go, if_neg (by omega : ¬ 1024 ≤ 2 ^ k), e1, e2]
    · have hge : 1024 ≤ 2 ^ k := by
        calc (1024 : Nat) = 2 ^ 10 := by norm_num
        _ ≤ 2 ^ k := Nat.pow_le_pow_right (by norm_num) (by omega)
      have hdiv : 2 ^ k / 1024 = 2 ^ (k - 10) := by
        rw [show (1024 : Nat) = 2 ^ 10 by norm_num,
          Nat.pow_div (by omega) (by norm_num)]
      have e1 : (k - 10) % 10 = k % 10 := by omega
      have e2 : (k - 10) / 10 + 1 = k / 10 := by omega
      simp only [reduce1024Go, if_pos hge, hdiv, ih (k - 10) (by omega), e1, e2]

theorem reduce1024_pow2 (k : Nat) : reduce1024 (2 ^ k) = (2 ^ (k % 10), k / 10) :=
  reduce1024Go_pow2 (2 ^ k) k
    (le_of_lt (lt_of_le_of_lt (Nat.div_le_self k 10) (Nat.lt_two_pow k)))

/-- Claim C10: `next_power_of_two x` returns a pair `(q, m)` with
`1 ≤ q < 1024`, `q` a power of two, and `q * 1024 ^ m` the smallest power of
two greater than or equal to `x` (equal to `1` when `x ≤ 1`). -/
theorem next_power_of_two_correct :
    ∀ (x q m : Nat), next_power_of_two x = (q, m) →
      (1 ≤ q ∧ q < 1024) ∧ (∃ j, q = 2 ^ j) ∧
      x ≤ q * 1024 ^ m ∧
      (∀ y, (∃ k, y = 2 ^ k) → x ≤ y → q * 1024 ^ m ≤ y) ∧
      (x ≤ 1 → q * 1024 ^ m = 1) := by
  intro x q m h
  have harg : (if x = 0 then 1 else 1 <<< pyBitLength (x - 1)) =
      2 ^ (if x = 0 then 0 else pyBitLength (x - 1)) := by
    split <;> simp [Nat.shiftLeft_eq]
  rw [next_power_of_two, harg, reduce1024_pow2] at h
  set e := if x = 0 then 0 else pyBitLength (x - 1) with he
  have hq : q = 2 ^ (e % 10) := (Prod.mk.injEq .. ▸ h).1.symm
  have hm : m = e / 10 := (Prod.mk.injEq .. ▸ h).2.symm
  have hqm : q * 1024 ^ m = 2 ^ e := by
    rw [hq, hm, show (1024 : Nat) = 2 ^ 10 by norm_num, ← pow_mul, ← pow_add]
    congr 1
    omega
  have he0 : x ≤ 1 → e = 0 := by
    intro hx
    rcases Nat.le_one_iff_eq_zero_or_eq_one.mp hx with h0 | h1
    · simp [he, h0]
    · subst h1
      simp only [he, if_neg (by omega : ¬ (1 : Nat) = 0)]
      rfl
  have hbig : 2 ≤ x → (1 ≤ e ∧ 2 ^ (e - 1) ≤ x - 1 ∧ x - 1 < 2 ^ e) := by
    intro hx
    have hee : e = pyBitLength (x - 1) := by
      rw [he, if_neg (by omega : ¬ x = 0)]
    rw [hee]
    exact pyBitLength_spec (x - 1) (by omega)
  refine ⟨⟨?_, ?_⟩, ⟨e % 10, hq⟩, ?_, ?_, ?_⟩
  · rw [hq]
    exact Nat.one_le_two_pow
  · rw [hq]
    calc 2 ^ (e % 10) < 2 ^ 10 := Nat.pow_lt_pow_right (by norm_num) (by omega)
    _ = 1024 := by norm_num
  · rw [hqm]
    by_cases hx : x ≤ 1
    · rw [he0 hx]
      omega
    · obtain ⟨-, -, h3⟩ := hbig (by omega)
      omega
  · rintro y ⟨k, rfl⟩ hxy
    rw [hqm]
    by_cases hx : x ≤ 1
    · rw [he0 hx]
      exact Nat.one_le_two_pow
    · obtain ⟨h1, h2, -⟩ := hbig (by omega)
      have hlt : 2 ^ (e - 1) < 2 ^ k := by omega
      have hek : e - 1 < k := (Nat.pow_lt_pow_iff_right (by norm_num)).mp hlt
      exact Nat.pow_le_pow_right (by norm_num) (by omega)
  · intro hx
    rw [hqm, he0 hx]
    norm_num

/-- Claim C10 at the concrete input `x = 468349` (the docstring's example):
`next_power_of_two 468349 = (512, 1)` and `512 * 1024 ^ 1 = 524288` is the
least power of two at or above the input. -/
theorem next_power_of_two_correct_instance :
    next_power_of_two 468349 = (512, 1) ∧
    ((1 ≤ 512 ∧ 512 < 1024) ∧ (∃ j, (512 : Nat) = 2 ^ j) ∧
      468349 ≤ 512 * 1024 ^ 1 ∧
      (∀ y, (∃ k, y = 2 ^ k) → 468349 ≤ y → 512 * 1024 ^ 1 ≤ y) ∧
      (468349 ≤ 1 → 512 * 1024 ^ 1 = 1)) :=
  ⟨by decide, next_power_of_two_correct 468349 512 1 (by decide)⟩

end RpiMonitor
